import Mathlib

/-!
Verification of the Paclone tile canvas (code/Samples/General/Paclone/canvas.h).

The repository fragment contains only the class declaration (canvas.h); the
member-function bodies live in a canvas.cc that is not part of the fragment.
Compile-time constants, field declarations and default member initializers are
taken directly from canvas.h and are authoritative; the behaviour of the member
functions is modelled from the specification (each such definition carries a
doc comment starting with "Modelled from the spec:").

Machine integers are modelled as Nat / Int: all quantities involved (tile
counts up to 64, pixel sizes, vertex counts up to ~25k) are far below any
32-bit overflow boundary, so plain integers are a faithful embedding.
-/

namespace Paclone

/-- From canvas.h line 57: static const int MaxWidth = 64. -/
def MaxWidth : Nat := 64

/-- From canvas.h line 58: static const int MaxHeight = 64. -/
def MaxHeight : Nat := 64

/-- From canvas.h line 61: static const int MaxNumSprites = 8. -/
def MaxNumSprites : Nat := 8

/-- From canvas.h line 73: static const int MaxNumVertices = MaxWidth * MaxHeight * 6.
This is the declared capacity of the vertexBuffer array (canvas.h line 74). -/
def MaxNumVertices : Nat := MaxWidth * MaxHeight * 6

/-- The external Sheet::InvalidSprite sentinel (sprites.h, external collaborator).
Sprite identifiers are modelled as Option Nat, with none standing for
Sheet::InvalidSprite (the spec recommends modelling the sentinel as an
explicit tagged-absent value). -/
def InvalidSprite : Option Nat := none

/-- A texture-coordinate rectangle on the sprite sheet (external collaborator:
the sheet exposes a sprite-identifier to texture-coordinate-rectangle mapping). -/
structure UVRect where
  u0 : Int
  v0 : Int
  u1 : Int
  v1 : Int
deriving DecidableEq

/-- Modelled from the spec: the external sprite sheet / character map
collaborator, exposing a sprite-id to texture-rectangle lookup and a
character to sprite-id lookup (unknown characters resolve to the empty
sentinel, i.e. none). Both are pure stateless functions. -/
structure Sheet where
  uvRect : Nat → UVRect
  charMap : Char → Option Nat

/-- From canvas.h lines 62-68: struct sprite with default member initializers
id = Sheet::InvalidSprite, x = 0, y = 0, w = 0, h = 0. -/
structure SpriteRec where
  id : Option Nat
  x : Int
  y : Int
  w : Int
  h : Int
deriving DecidableEq

/-- From canvas.h lines 70-72: struct vertex with fields x, y, u, v. -/
structure vertex where
  x : Int
  y : Int
  u : Int
  v : Int
deriving DecidableEq

/-- The canvas state: fields from canvas.h lines 43-68. The C arrays
tiles[MaxWidth * MaxHeight] and sprites[MaxNumSprites] are modelled as total
functions indexed by tile coordinate / slot index; the external render
resource handles (mesh, prog, drawState, texture) are out of scope. -/
structure canvas where
  isValid : Bool
  numTilesX : Nat
  numTilesY : Nat
  tileWidth : Nat
  tileHeight : Nat
  canvasWidth : Nat
  canvasHeight : Nat
  numSprites : Nat
  tiles : Nat → Nat → Option Nat
  sprites : Nat → SpriteRec

/-- The default-constructed canvas. Sprite slot defaults are from the
canvas.h line 62-68 default member initializers (id = Sheet::InvalidSprite,
all pixel fields 0); the remaining fields are the Uninitialized state
modelled from the spec state machine (isValid false, empty grid). -/
def canvasDefault : canvas where
  isValid := false
  numTilesX := 0
  numTilesY := 0
  tileWidth := 0
  tileHeight := 0
  canvasWidth := 0
  canvasHeight := 0
  numSprites := 0
  tiles := fun _ _ => InvalidSprite
  sprites := fun _ => { id := InvalidSprite, x := 0, y := 0, w := 0, h := 0 }

/-- Modelled from the spec: IsValid() is true between a successful Setup and
the matching Discard. -/
def IsValid (c : canvas) : Bool := c.isValid

/-- Modelled from the spec: Setup validates the requested dimensions against
the compile-time maxima (64x64 tiles, 8 sprites) and fails, leaving the
canvas untouched, if they are exceeded; on success it initializes all grid
cells to the empty sentinel, all sprite slots to inactive, and establishes
the derived pixel canvas size = tiles x tile size. The acquisition of
backend render resources is external and out of scope. -/
def Setup (c : canvas) (ntx nty tw th ns : Nat) : canvas :=
  if ntx ≤ MaxWidth ∧ nty ≤ MaxHeight ∧ ns ≤ MaxNumSprites then
    { isValid := true
      numTilesX := ntx
      numTilesY := nty
      tileWidth := tw
      tileHeight := th
      canvasWidth := ntx * tw
      canvasHeight := nty * th
      numSprites := ns
      tiles := fun _ _ => InvalidSprite
      sprites := fun _ => { id := InvalidSprite, x := 0, y := 0, w := 0, h := 0 } }
  else c

/-- Modelled from the spec: Discard releases the acquired render resources
(external, out of scope) and the canvas becomes invalid. -/
def Discard (c : canvas) : canvas := { c with isValid := false }

/-- Modelled from the spec: ClampX restricts a tile x-coordinate to the
interval from 0 up to (excluding) numTilesX. -/
def ClampX (c : canvas) (tileX : Int) : Int :=
  if tileX < 0 then 0
  else if (c.numTilesX : Int) ≤ tileX then (c.numTilesX : Int) - 1
  else tileX

/-- Modelled from the spec: ClampY restricts a tile y-coordinate to the
interval from 0 up to (excluding) numTilesY. -/
def ClampY (c : canvas) (tileY : Int) : Int :=
  if tileY < 0 then 0
  else if (c.numTilesY : Int) ≤ tileY then (c.numTilesY : Int) - 1
  else tileY

/-- Modelled from the spec: SetTile overwrites the single grid cell
(tileX, tileY) with the given sprite id; coordinates must be pre-clamped by
the caller for defined behaviour. -/
def SetTile (c : canvas) (sprite : Option Nat) (tileX tileY : Nat) : canvas :=
  { c with tiles := fun a b => if a = tileX ∧ b = tileY then sprite else c.tiles a b }

/-- Modelled from the spec: SetSprite overwrites the dynamic sprite slot at
the given index with the given id, pixel position and pixel size. -/
def SetSprite (c : canvas) (index : Nat) (sprite : Option Nat)
    (pixX pixY pixW pixH : Int) : canvas :=
  { c with sprites := fun j =>
      if j = index then { id := sprite, x := pixX, y := pixY, w := pixW, h := pixH }
      else c.sprites j }

/-- Row-major traversal order of an ny-by-nx grid: y outer, x inner,
as in the canvas tile loops. -/
def gridCells (nx ny : Nat) : List (Nat × Nat) :=
  (List.range ny).flatMap (fun y => (List.range nx).map (fun x => (x, y)))

/-- The traversal order of the configured tile grid of a canvas. -/
def cellList (c : canvas) : List (Nat × Nat) := gridCells c.numTilesX c.numTilesY

/-- Modelled from the spec: one step of CopyCharMap. The character at
relative cell p = (cx, cy) of the source rectangle is looked up at row-major
index cy * w + cx of the flat character sequence, translated through the
sheet character map, and written to destination cell (tx + cx, ty + cy) when
that cell lies inside the grid bounds; characters whose destination lies
outside the grid are silently dropped. -/
def copyStep (sh : Sheet) (c0 : canvas) (tx ty : Int) (w : Nat) (cm : List Char)
    (acc : canvas) (p : Nat × Nat) : canvas :=
  if 0 ≤ tx + (p.1 : Int) ∧ tx + (p.1 : Int) < (c0.numTilesX : Int) ∧
      0 ≤ ty + (p.2 : Int) ∧ ty + (p.2 : Int) < (c0.numTilesY : Int) then
    SetTile acc (sh.charMap (cm.getD (p.2 * w + p.1) ' '))
      (tx + (p.1 : Int)).toNat (ty + (p.2 : Int)).toNat
  else acc

/-- Modelled from the spec: CopyCharMap writes a rectangular w-by-h block of
the grid at destination offset (tx, ty) from a flat row-major character
sequence, translating each character to a sprite identifier through the
external character map; out-of-bounds destination cells are dropped. -/
def CopyCharMap (sh : Sheet) (c : canvas) (tx ty : Int) (w h : Nat)
    (cm : List Char) : canvas :=
  (gridCells w h).foldl (copyStep sh c tx ty w cm) c

/-- Modelled from the spec: the quad (two triangles, 6 vertices) emitted for
tile cell (tx, ty) holding sprite id: position derived from the cell
coordinate times the tile size, texture coordinates from the sheet lookup. -/
def tileQuad (sh : Sheet) (c : canvas) (tx ty : Nat) (id : Nat) : List vertex :=
  let x0 : Int := ((tx * c.tileWidth : Nat) : Int)
  let y0 : Int := ((ty * c.tileHeight : Nat) : Int)
  let x1 : Int := x0 + (c.tileWidth : Int)
  let y1 : Int := y0 + (c.tileHeight : Int)
  let r : UVRect := sh.uvRect id
  [ { x := x0, y := y0, u := r.u0, v := r.v0 }
  , { x := x1, y := y0, u := r.u1, v := r.v0 }
  , { x := x1, y := y1, u := r.u1, v := r.v1 }
  , { x := x0, y := y0, u := r.u0, v := r.v0 }
  , { x := x1, y := y1, u := r.u1, v := r.v1 }
  , { x := x0, y := y1, u := r.u0, v := r.v1 } ]

/-- Modelled from the spec: the quad emitted for an active dynamic sprite
slot, at its explicit pixel position and size, texture coordinates from the
sheet lookup of its sprite id. -/
def spriteQuad (sh : Sheet) (s : SpriteRec) (id : Nat) : List vertex :=
  let x0 : Int := s.x
  let y0 : Int := s.y
  let x1 : Int := s.x + s.w
  let y1 : Int := s.y + s.h
  let r : UVRect := sh.uvRect id
  [ { x := x0, y := y0, u := r.u0, v := r.v0 }
  , { x := x1, y := y0, u := r.u1, v := r.v0 }
  , { x := x1, y := y1, u := r.u1, v := r.v1 }
  , { x := x0, y := y0, u := r.u0, v := r.v0 }
  , { x := x1, y := y1, u := r.u1, v := r.v1 }
  , { x := x0, y := y1, u := r.u0, v := r.v1 } ]

/-- Modelled from the spec: the vertices a single grid cell contributes to
the regenerated buffer: a quad when the cell holds a non-empty sprite id,
nothing when it holds the empty sentinel. -/
def tileContribution (sh : Sheet) (c : canvas) (p : Nat × Nat) : List vertex :=
  match c.tiles p.1 p.2 with
  | some id => tileQuad sh c p.1 p.2 id
  | none => []

/-- Modelled from the spec: the vertices a single dynamic sprite slot
contributes: a quad when the slot is active (id not the invalid sentinel),
nothing when it is inactive. -/
def slotVerts (sh : Sheet) (c : canvas) (i : Nat) : List vertex :=
  match (c.sprites i).id with
  | some id => spriteQuad sh (c.sprites i) id
  | none => []

/-- Modelled from the spec: updateVertices regenerates the whole vertex
buffer by a sequential write (the writeVertex running index is the buffer
length): first the tile grid is traversed in row-major order, appending a
quad per occupied cell, then the sprite slots from index 0 up to the
configured numSprites, appending a quad per active slot. -/
def updateVertices (sh : Sheet) (c : canvas) : List vertex :=
  (List.range c.numSprites).foldl
    (fun buf i => buf ++ slotVerts sh c i)
    ((cellList c).foldl (fun buf p => buf ++ tileContribution sh c p) [])

/-- Modelled from the spec: Render regenerates the full vertex buffer from
the current grid and sprite state (the upload / draw submission to the
external backend is out of scope, so the observable result is the buffer). -/
def Render (sh : Sheet) (c : canvas) : List vertex := updateVertices sh c

/-- The numVertices counter (canvas.h line 51) as set by a regeneration pass:
the number of vertex records written. -/
def numVertices (sh : Sheet) (c : canvas) : Nat := (updateVertices sh c).length

/-- The tile-derived portion of the regenerated buffer. -/
def tileVerts (sh : Sheet) (c : canvas) : List vertex :=
  (cellList c).flatMap (tileContribution sh c)

/-- The sprite-derived portion of the regenerated buffer, slots traversed in
index order. -/
def spriteVerts (sh : Sheet) (c : canvas) : List vertex :=
  (List.range c.numSprites).flatMap (slotVerts sh c)

/-- The number of grid cells currently holding a non-empty sprite id. -/
def occupiedCount (c : canvas) : Nat :=
  (cellList c).countP (fun p => (c.tiles p.1 p.2).isSome)

/-- The number of currently active dynamic sprite slots. -/
def activeCount (c : canvas) : Nat :=
  (List.range c.numSprites).countP (fun i => (c.sprites i).id.isSome)

/-- A small concrete sprite sheet used to instantiate theorems: two known
characters and an injective uv layout. -/
def testSheet : Sheet where
  uvRect := fun id => { u0 := (id : Int), v0 := 0, u1 := (id : Int) + 1, v1 := 1 }
  charMap := fun ch => if ch = 'B' then some 0 else if ch = 'P' then some 1 else InvalidSprite

/-- A 4x4 canvas fixture used to instantiate theorems with hypotheses. -/
def smallCanvas : canvas := Setup canvasDefault 4 4 8 8 2

/-- A 10x10 canvas fixture, as in the spec example scenario. -/
def demoCanvas : canvas := Setup canvasDefault 10 10 16 16 2

/-- A 3x3 character block for instantiating CopyCharMap. -/
def charMap33 : List Char := ['B', 'P', 'B', 'P', 'B', 'P', 'B', 'P', 'B']

/-- A canvas reached through the public API alone: a maximal valid Setup
(64x64 tiles, 8 sprites), every grid cell filled through one CopyCharMap of
4096 mapped characters, and one sprite slot activated. -/
def fullCanvas : canvas :=
  SetSprite
    (CopyCharMap testSheet (Setup canvasDefault 64 64 8 8 8) 0 0 64 64
      (List.replicate 4096 'B'))
    0 (some 0) 100 100 8 8

/- ------------------------------------------------------------------ -/
/- Helper lemmas -/
/- ------------------------------------------------------------------ -/

theorem foldl_append_eq_flatMap {α β : Type} (f : α → List β) :
    ∀ (L : List α) (init : List β),
      L.foldl (fun buf a => buf ++ f a) init = init ++ L.flatMap f := by
  intro L
  induction L with
  | nil => intro init; simp
  | cons a L ih =>
      intro init
      simp only [List.foldl_cons, List.flatMap_cons, ih, List.append_assoc]

theorem updateVertices_decomp (sh : Sheet) (c : canvas) :
    updateVertices sh c = tileVerts sh c ++ spriteVerts sh c := by
  unfold updateVertices tileVerts spriteVerts
  rw [foldl_append_eq_flatMap, foldl_append_eq_flatMap]
  simp

theorem length_flatMap_countP {α β : Type} (f : α → List β) (p : α → Bool) :
    ∀ (L : List α), (∀ a ∈ L, (f a).length = if p a then 6 else 0) →
      (L.flatMap f).length = 6 * L.countP p := by
  intro L
  induction L with
  | nil => intro _; simp
  | cons a L ih =>
      intro h
      rw [List.flatMap_cons, List.length_append, List.countP_cons,
        ih (fun b hb => h b (List.mem_cons_of_mem a hb)),
        h a (List.mem_cons_self a L)]
      cases hpa : p a
      · simp [hpa]
      · simp [hpa]
        omega

theorem tileQuad_length (sh : Sheet) (c : canvas) (tx ty id : Nat) :
    (tileQuad sh c tx ty id).length = 6 := rfl

theorem spriteQuad_length (sh : Sheet) (s : SpriteRec) (id : Nat) :
    (spriteQuad sh s id).length = 6 := rfl

theorem tileContribution_length (sh : Sheet) (c : canvas) (p : Nat × Nat) :
    (tileContribution sh c p).length
      = if (c.tiles p.1 p.2).isSome then 6 else 0 := by
  unfold tileContribution
  cases c.tiles p.1 p.2 <;> rfl

theorem slotVerts_length (sh : Sheet) (c : canvas) (i : Nat) :
    (slotVerts sh c i).length = if (c.sprites i).id.isSome then 6 else 0 := by
  unfold slotVerts
  cases (c.sprites i).id <;> rfl

theorem numVertices_formula (sh : Sheet) (c : canvas) :
    numVertices sh c = 6 * (occupiedCount c + activeCount c) := by
  unfold numVertices occupiedCount activeCount
  rw [updateVertices_decomp, List.length_append]
  unfold tileVerts spriteVerts
  rw [length_flatMap_countP _ _ _ (fun p _ => tileContribution_length sh c p),
    length_flatMap_countP _ _ _ (fun i _ => slotVerts_length sh c i)]
  ring

theorem gridCells_length (nx : Nat) : ∀ ny, (gridCells nx ny).length = ny * nx := by
  intro ny
  induction ny with
  | zero => simp [gridCells]
  | succ n ih =>
      unfold gridCells at *
      rw [List.range_succ, List.flatMap_append, List.length_append, ih]
      simp [Nat.succ_mul]

theorem mem_gridCells {nx ny : Nat} {p : Nat × Nat} :
    p ∈ gridCells nx ny ↔ p.1 < nx ∧ p.2 < ny := by
  unfold gridCells
  constructor
  · intro h
    rcases List.mem_flatMap.mp h with ⟨y, hy, hp⟩
    rcases List.mem_map.mp hp with ⟨x, hx, hxy⟩
    rw [← hxy]
    exact ⟨List.mem_range.mp hx, List.mem_range.mp hy⟩
  · rintro ⟨h1, h2⟩
    refine List.mem_flatMap.mpr ⟨p.2, List.mem_range.mpr h2, ?_⟩
    exact List.mem_map.mpr ⟨p.1, List.mem_range.mpr h1, rfl⟩

theorem nodup_gridCells (nx ny : Nat) : (gridCells nx ny).Nodup := by
  unfold gridCells
  refine List.nodup_flatMap.mpr ⟨?_, ?_⟩
  · intro y _
    refine List.Nodup.map ?_ (List.nodup_range nx)
    intro a b hab
    exact congrArg Prod.fst hab
  · refine List.Pairwise.imp ?_ (List.pairwise_lt_range ny)
    intro a b hab q hqa hqb
    rcases List.mem_map.mp hqa with ⟨x1, _, h1⟩
    rcases List.mem_map.mp hqb with ⟨x2, _, h2⟩
    have : a = b := by
      have ha : q.2 = a := by rw [← h1]
      have hb : q.2 = b := by rw [← h2]
      omega
    omega

theorem count_one_of_nodup {α : Type} [BEq α] [LawfulBEq α] :
    ∀ (l : List α) (a : α), l.Nodup → a ∈ l → l.count a = 1 := by
  intro l a
  induction l with
  | nil => intro _ ha; exact absurd ha (List.not_mem_nil a)
  | cons b l ih =>
      intro hn ha
      rcases List.nodup_cons.mp hn with ⟨hb, hl⟩
      rw [List.count_cons]
      rcases List.mem_cons.mp ha with rfl | hmem
      · rw [List.count_eq_zero.mpr hb]
        simp
      · have hba : ¬(b == a) = true := by
          intro hba
          exact hb (by rw [eq_of_beq hba]; exact hmem)
        rw [ih hl hmem]
        simp [hba]

theorem count_gridCells {nx ny : Nat} {p : Nat × Nat}
    (h1 : p.1 < nx) (h2 : p.2 < ny) : (gridCells nx ny).count p = 1 :=
  count_one_of_nodup (gridCells nx ny) p (nodup_gridCells nx ny)
    (mem_gridCells.mpr ⟨h1, h2⟩)

theorem SetTile_tiles (c : canvas) (s : Option Nat) (tx ty a b : Nat) :
    (SetTile c s tx ty).tiles a b = if a = tx ∧ b = ty then s else c.tiles a b := rfl

theorem copyStep_sprites (sh : Sheet) (c0 : canvas) (tx ty : Int) (w : Nat)
    (cm : List Char) (acc : canvas) (p : Nat × Nat) :
    (copyStep sh c0 tx ty w cm acc p).sprites = acc.sprites := by
  unfold copyStep SetTile
  split <;> rfl

theorem copyStep_shape (sh : Sheet) (c0 : canvas) (tx ty : Int) (w : Nat)
    (cm : List Char) (acc : canvas) (p : Nat × Nat) :
    (copyStep sh c0 tx ty w cm acc p).numTilesX = acc.numTilesX ∧
    (copyStep sh c0 tx ty w cm acc p).numTilesY = acc.numTilesY ∧
    (copyStep sh c0 tx ty w cm acc p).numSprites = acc.numSprites ∧
    (copyStep sh c0 tx ty w cm acc p).tileWidth = acc.tileWidth ∧
    (copyStep sh c0 tx ty w cm acc p).tileHeight = acc.tileHeight ∧
    (copyStep sh c0 tx ty w cm acc p).isValid = acc.isValid := by
  unfold copyStep SetTile
  split <;> exact ⟨rfl, rfl, rfl, rfl, rfl, rfl⟩

theorem copy_foldl_shape (sh : Sheet) (c0 : canvas) (tx ty : Int) (w : Nat)
    (cm : List Char) : ∀ (L : List (Nat × Nat)) (acc : canvas),
    (L.foldl (copyStep sh c0 tx ty w cm) acc).numTilesX = acc.numTilesX ∧
    (L.foldl (copyStep sh c0 tx ty w cm) acc).numTilesY = acc.numTilesY ∧
    (L.foldl (copyStep sh c0 tx ty w cm) acc).numSprites = acc.numSprites ∧
    (L.foldl (copyStep sh c0 tx ty w cm) acc).sprites = acc.sprites := by
  intro L
  induction L with
  | nil => intro acc; exact ⟨rfl, rfl, rfl, rfl⟩
  | cons q L ih =>
      intro acc
      rw [List.foldl_cons]
      rcases ih (copyStep sh c0 tx ty w cm acc q) with ⟨e1, e2, e3, e4⟩
      rcases copyStep_shape sh c0 tx ty w cm acc q with ⟨f1, f2, f3, _, _, _⟩
      exact ⟨e1.trans f1, e2.trans f2, e3.trans f3,
        e4.trans (copyStep_sprites sh c0 tx ty w cm acc q)⟩

/-- The character written to absolute grid cell (x, y) by a CopyCharMap with
destination offset (tx, ty) and row width w: row-major index of the relative
cell, looked up in the flat character sequence and translated. -/
def copiedValue (sh : Sheet) (tx ty : Int) (w : Nat) (cm : List Char)
    (x y : Nat) : Option Nat :=
  sh.charMap (cm.getD ((((y : Int) - ty).toNat) * w + (((x : Int) - tx).toNat)) ' ')

theorem copy_foldl_tiles (sh : Sheet) (c0 : canvas) (tx ty : Int) (w : Nat)
    (cm : List Char) :
    ∀ (L : List (Nat × Nat)) (acc : canvas) (x y : Nat),
      x < c0.numTilesX → y < c0.numTilesY →
      ((∃ p ∈ L, tx + (p.1 : Int) = (x : Int) ∧ ty + (p.2 : Int) = (y : Int)) →
        (L.foldl (copyStep sh c0 tx ty w cm) acc).tiles x y
          = copiedValue sh tx ty w cm x y) ∧
      ((∀ p ∈ L, ¬(tx + (p.1 : Int) = (x : Int) ∧ ty + (p.2 : Int) = (y : Int))) →
        (L.foldl (copyStep sh c0 tx ty w cm) acc).tiles x y = acc.tiles x y) := by
  intro L
  induction L using List.reverseRecOn with
  | nil =>
      intro acc x y _ _
      exact ⟨fun h => absurd h (by simp), fun _ => rfl⟩
  | append_singleton L q ih =>
      intro acc x y hx hy
      rw [List.foldl_append, List.foldl_cons, List.foldl_nil]
      by_cases hq : tx + (q.1 : Int) = (x : Int) ∧ ty + (q.2 : Int) = (y : Int)
      · have hcond : 0 ≤ tx + (q.1 : Int) ∧ tx + (q.1 : Int) < (c0.numTilesX : Int) ∧
            0 ≤ ty + (q.2 : Int) ∧ ty + (q.2 : Int) < (c0.numTilesY : Int) := by
          omega
        have hwrite : (copyStep sh c0 tx ty w cm
            (L.foldl (copyStep sh c0 tx ty w cm) acc) q).tiles x y
              = copiedValue sh tx ty w cm x y := by
          unfold copyStep
          rw [if_pos hcond, SetTile_tiles, if_pos (by omega)]
          unfold copiedValue
          have e1 : q.1 = ((x : Int) - tx).toNat := by omega
          have e2 : q.2 = ((y : Int) - ty).toNat := by omega
          rw [e1, e2]
        constructor
        · intro _; exact hwrite
        · intro hall
          exact absurd hq (hall q (List.mem_append_right L (List.mem_singleton.mpr rfl)))
      · have hskip : (copyStep sh c0 tx ty w cm
            (L.foldl (copyStep sh c0 tx ty w cm) acc) q).tiles x y
              = (L.foldl (copyStep sh c0 tx ty w cm) acc).tiles x y := by
          unfold copyStep
          split
          · rename_i hcond
            rw [SetTile_tiles, if_neg (by omega)]
          · rfl
        rw [hskip]
        constructor
        · rintro ⟨p, hp, hpm⟩
          rcases List.mem_append.mp hp with hpL | hpq
          · exact (ih acc x y hx hy).1 ⟨p, hpL, hpm⟩
          · rw [List.mem_singleton.mp hpq] at hpm
            exact absurd hpm hq
        · intro hall
          exact (ih acc x y hx hy).2 (fun p hp => hall p (List.mem_append_left _ hp))

theorem copyCharMap_tiles (sh : Sheet) (c : canvas) (tx ty : Int) (w h : Nat)
    (cm : List Char) (x y : Nat) (hx : x < c.numTilesX) (hy : y < c.numTilesY) :
    (tx ≤ (x : Int) ∧ (x : Int) < tx + (w : Int) ∧
        ty ≤ (y : Int) ∧ (y : Int) < ty + (h : Int) →
      (CopyCharMap sh c tx ty w h cm).tiles x y = copiedValue sh tx ty w cm x y) ∧
    (¬(tx ≤ (x : Int) ∧ (x : Int) < tx + (w : Int) ∧
        ty ≤ (y : Int) ∧ (y : Int) < ty + (h : Int)) →
      (CopyCharMap sh c tx ty w h cm).tiles x y = c.tiles x y) := by
  have main := copy_foldl_tiles sh c tx ty w cm (gridCells w h) c x y hx hy
  unfold CopyCharMap
  constructor
  · rintro ⟨h1, h2, h3, h4⟩
    apply main.1
    refine ⟨(((x : Int) - tx).toNat, ((y : Int) - ty).toNat),
      mem_gridCells.mpr ⟨by omega, by omega⟩, by omega, by omega⟩
  · intro hnot
    apply main.2
    intro p hp hpm
    rcases mem_gridCells.mp hp with ⟨hpw, hph⟩
    exact hnot (by omega)

theorem setup64_eq : Setup canvasDefault 64 64 8 8 8 =
    { isValid := true, numTilesX := 64, numTilesY := 64, tileWidth := 8,
      tileHeight := 8, canvasWidth := 512, canvasHeight := 512, numSprites := 8,
      tiles := fun _ _ => InvalidSprite,
      sprites := fun _ => { id := InvalidSprite, x := 0, y := 0, w := 0, h := 0 } } := by
  unfold Setup
  rw [if_pos (by decide)]

theorem SetSprite_numTilesX (c : canvas) (i : Nat) (s : Option Nat)
    (px py pw ph : Int) : (SetSprite c i s px py pw ph).numTilesX = c.numTilesX := rfl

theorem SetSprite_numTilesY (c : canvas) (i : Nat) (s : Option Nat)
    (px py pw ph : Int) : (SetSprite c i s px py pw ph).numTilesY = c.numTilesY := rfl

theorem SetSprite_numSprites (c : canvas) (i : Nat) (s : Option Nat)
    (px py pw ph : Int) : (SetSprite c i s px py pw ph).numSprites = c.numSprites := rfl

theorem SetSprite_tiles (c : canvas) (i : Nat) (s : Option Nat)
    (px py pw ph : Int) : (SetSprite c i s px py pw ph).tiles = c.tiles := rfl

theorem SetSprite_sprites (c : canvas) (i : Nat) (s : Option Nat)
    (px py pw ph : Int) (j : Nat) :
    (SetSprite c i s px py pw ph).sprites j =
      if j = i then { id := s, x := px, y := py, w := pw, h := ph }
      else c.sprites j := rfl

theorem fullCanvas_numTilesX : fullCanvas.numTilesX = 64 := by
  unfold fullCanvas
  rw [SetSprite_numTilesX]
  unfold CopyCharMap
  rw [(copy_foldl_shape testSheet (Setup canvasDefault 64 64 8 8 8) 0 0 64
    (List.replicate 4096 'B') (gridCells 64 64) (Setup canvasDefault 64 64 8 8 8)).1,
    setup64_eq]

theorem fullCanvas_numTilesY : fullCanvas.numTilesY = 64 := by
  unfold fullCanvas
  rw [SetSprite_numTilesY]
  unfold CopyCharMap
  rw [(copy_foldl_shape testSheet (Setup canvasDefault 64 64 8 8 8) 0 0 64
    (List.replicate 4096 'B') (gridCells 64 64) (Setup canvasDefault 64 64 8 8 8)).2.1,
    setup64_eq]

theorem fullCanvas_numSprites : fullCanvas.numSprites = 8 := by
  unfold fullCanvas
  rw [SetSprite_numSprites]
  unfold CopyCharMap
  rw [(copy_foldl_shape testSheet (Setup canvasDefault 64 64 8 8 8) 0 0 64
    (List.replicate 4096 'B') (gridCells 64 64) (Setup canvasDefault 64 64 8 8 8)).2.2.1,
    setup64_eq]

theorem fullCanvas_sprites (j : Nat) :
    fullCanvas.sprites j =
      if j = 0 then { id := some 0, x := 100, y := 100, w := 8, h := 8 }
      else { id := InvalidSprite, x := 0, y := 0, w := 0, h := 0 } := by
  unfold fullCanvas
  rw [SetSprite_sprites]
  unfold CopyCharMap
  rw [(copy_foldl_shape testSheet (Setup canvasDefault 64 64 8 8 8) 0 0 64
    (List.replicate 4096 'B') (gridCells 64 64) (Setup canvasDefault 64 64 8 8 8)).2.2.2,
    setup64_eq]

theorem fullCanvas_tiles_occupied :
    ∀ p ∈ cellList fullCanvas, (fullCanvas.tiles p.1 p.2).isSome = true := by
  intro p hp
  unfold cellList at hp
  rw [fullCanvas_numTilesX, fullCanvas_numTilesY] at hp
  rcases mem_gridCells.mp hp with ⟨h1, h2⟩
  unfold fullCanvas
  rw [SetSprite_tiles]
  have hx : p.1 < (Setup canvasDefault 64 64 8 8 8).numTilesX := by
    rw [setup64_eq]; exact h1
  have hy : p.2 < (Setup canvasDefault 64 64 8 8 8).numTilesY := by
    rw [setup64_eq]; exact h2
  rw [(copyCharMap_tiles testSheet (Setup canvasDefault 64 64 8 8 8) 0 0 64 64
    (List.replicate 4096 'B') p.1 p.2 hx hy).1 (by omega)]
  unfold copiedValue
  have hidx : ((((p.2 : Nat) : Int) - 0).toNat) * 64 + ((((p.1 : Nat) : Int) - 0).toNat)
      = p.2 * 64 + p.1 := by omega
  rw [hidx]
  have hlt : p.2 * 64 + p.1 < 4096 := by omega
  have hgd : (List.replicate 4096 'B').getD (p.2 * 64 + p.1) ' ' = 'B' := by
    rw [List.getD_eq_getElem?_getD, List.getElem?_replicate, if_pos hlt]
    rfl
  rw [hgd]
  rfl

theorem fullCanvas_occupiedCount : occupiedCount fullCanvas = 4096 := by
  unfold occupiedCount
  rw [List.countP_eq_length.mpr fullCanvas_tiles_occupied]
  unfold cellList
  rw [fullCanvas_numTilesX, fullCanvas_numTilesY, gridCells_length]

theorem fullCanvas_activeCount : activeCount fullCanvas = 1 := by
  unfold activeCount
  rw [fullCanvas_numSprites]
  have hcong : ∀ i ∈ List.range 8,
      ((fullCanvas.sprites i).id.isSome = true ↔ (decide (i = 0)) = true) := by
    intro i _
    rw [fullCanvas_sprites i]
    by_cases h : i = 0 <;> simp [h, InvalidSprite]
  rw [List.countP_congr hcong]
  decide

/- ------------------------------------------------------------------ -/
/- Claim theorems -/
/- ------------------------------------------------------------------ -/

/-- C1: the claim states the vertex buffer capacity equals
(maximum tiles + maximum sprites) x 6 and that the vertex count written
during regeneration never exceeds MaxNumVertices. In canvas.h line 73 the
capacity is MaxWidth * MaxHeight * 6 = 24576, which differs from
(64 * 64 + 8) * 6 = 24624, and the reachable canvas fullCanvas (valid
maximal Setup, grid fully populated via CopyCharMap, one active sprite)
makes regeneration write 6 * (4096 + 1) = 24582 vertex records, exceeding
the declared capacity: a buffer overflow in the code. -/
theorem C1_vertexBuffer_capacity_overflow :
    MaxNumVertices = 24576 ∧
    (MaxWidth * MaxHeight + MaxNumSprites) * 6 = 24624 ∧
    MaxNumVertices ≠ (MaxWidth * MaxHeight + MaxNumSprites) * 6 ∧
    numVertices testSheet fullCanvas = 24582 ∧
    MaxNumVertices < numVertices testSheet fullCanvas := by
  have hnum : numVertices testSheet fullCanvas = 24582 := by
    rw [numVertices_formula, fullCanvas_occupiedCount, fullCanvas_activeCount]
  refine ⟨by decide, by decide, by decide, hnum, ?_⟩
  rw [hnum]
  decide

/-- C2: for every canvas state, the total number of vertices emitted by a
Render pass equals 6 x (number of grid cells holding a non-empty sprite id
+ number of active dynamic sprite slots), and this total never exceeds the
capacity determined by the configured dimensions,
6 x (numTilesX x numTilesY + numSprites). -/
theorem C2_render_vertex_count (sh : Sheet) (c : canvas) :
    (Render sh c).length = 6 * (occupiedCount c + activeCount c) ∧
    (Render sh c).length ≤ 6 * (c.numTilesX * c.numTilesY + c.numSprites) := by
  refine ⟨numVertices_formula sh c, ?_⟩
  have he : (Render sh c).length = 6 * (occupiedCount c + activeCount c) :=
    numVertices_formula sh c
  rw [he]
  have ha : occupiedCount c ≤ (cellList c).length := by
    unfold occupiedCount
    exact List.countP_le_length _
  have hb : (cellList c).length = c.numTilesY * c.numTilesX := gridCells_length _ _
  have hc2 : activeCount c ≤ (List.range c.numSprites).length := by
    unfold activeCount
    exact List.countP_le_length _
  have hd : (List.range c.numSprites).length = c.numSprites := List.length_range _
  have h1 : occupiedCount c ≤ c.numTilesX * c.numTilesY := by
    rw [Nat.mul_comm]
    omega
  have h2 : activeCount c ≤ c.numSprites := by omega
  exact Nat.mul_le_mul_left 6 (Nat.add_le_add h1 h2)

/-- C3: for every combination of populated tiles and active sprite slots,
the buffer produced by Render places all quads derived from tile grid cells
before all quads derived from dynamic sprite slots, with sprite slots
traversed in index order. -/
theorem C3_tile_quads_before_sprite_quads (sh : Sheet) (c : canvas) :
    Render sh c = tileVerts sh c ++ (List.range c.numSprites).flatMap (slotVerts sh c) :=
  updateVertices_decomp sh c

/-- C4: for every integer input and every canvas with positive configured
dimensions, ClampX returns a value in the interval from 0 up to (excluding)
numTilesX, ClampY likewise for numTilesY, and both are idempotent. -/
theorem C4_clamp_range_idempotent (c : canvas) (x y : Int)
    (hx : 0 < c.numTilesX) (hy : 0 < c.numTilesY) :
    0 ≤ ClampX c x ∧ ClampX c x < (c.numTilesX : Int) ∧
    ClampX c (ClampX c x) = ClampX c x ∧
    0 ≤ ClampY c y ∧ ClampY c y < (c.numTilesY : Int) ∧
    ClampY c (ClampY c y) = ClampY c y := by
  unfold ClampX ClampY
  refine ⟨?_, ?_, ?_, ?_, ?_, ?_⟩ <;> split_ifs <;> omega

/-- C4 witness: concrete instance on the 10x10 fixture at inputs -5 and 77. -/
theorem C4_clamp_range_idempotent_witness :
    0 < demoCanvas.numTilesX ∧ 0 < demoCanvas.numTilesY ∧
    (0 ≤ ClampX demoCanvas (-5) ∧ ClampX demoCanvas (-5) < (demoCanvas.numTilesX : Int) ∧
    ClampX demoCanvas (ClampX demoCanvas (-5)) = ClampX demoCanvas (-5) ∧
    0 ≤ ClampY demoCanvas 77 ∧ ClampY demoCanvas 77 < (demoCanvas.numTilesY : Int) ∧
    ClampY demoCanvas (ClampY demoCanvas 77) = ClampY demoCanvas 77) :=
  ⟨by decide, by decide,
    C4_clamp_range_idempotent demoCanvas (-5) 77 (by decide) (by decide)⟩

/-- C5: for a CopyCharMap call, each character whose destination cell lies
inside the grid bounds is written to that cell as its mapped sprite id
(unmapped characters resolving to the empty sentinel through the sheet
lookup), and every grid cell outside the destination rectangle keeps its
previous content; characters aimed outside the grid affect nothing. -/
theorem C5_copyCharMap_bounds (sh : Sheet) (c : canvas) (tx ty : Int)
    (w h : Nat) (cm : List Char) (x y : Nat)
    (hx : x < c.numTilesX) (hy : y < c.numTilesY) :
    (tx ≤ (x : Int) ∧ (x : Int) < tx + (w : Int) ∧
        ty ≤ (y : Int) ∧ (y : Int) < ty + (h : Int) →
      (CopyCharMap sh c tx ty w h cm).tiles x y
        = sh.charMap (cm.getD ((((y : Int) - ty).toNat) * w
            + (((x : Int) - tx).toNat)) ' ')) ∧
    (¬(tx ≤ (x : Int) ∧ (x : Int) < tx + (w : Int) ∧
        ty ≤ (y : Int) ∧ (y : Int) < ty + (h : Int)) →
      (CopyCharMap sh c tx ty w h cm).tiles x y = c.tiles x y) :=
  copyCharMap_tiles sh c tx ty w h cm x y hx hy

/-- C5 witness: a 3x3 block written at offset (2, 1) of the 4x4 fixture
(one column of the block falls outside the grid); the in-bounds cell (3, 2)
receives the mapped value of the character at row-major index 4. -/
theorem C5_copyCharMap_bounds_witness :
    3 < smallCanvas.numTilesX ∧ 2 < smallCanvas.numTilesY ∧
    (CopyCharMap testSheet smallCanvas 2 1 3 3 charMap33).tiles 3 2 = some 0 :=
  ⟨by decide, by decide,
    ((C5_copyCharMap_bounds testSheet smallCanvas 2 1 3 3 charMap33 3 2
      (by decide) (by decide)).1 (by decide)).trans (by decide)⟩

/-- C6: SetTile with a non-empty sprite id on an in-range cell makes the
regeneration traverse that cell exactly once and emit for it exactly one
quad of 6 vertices, positioned at the cell coordinate times the tile size,
with texture coordinates from the sheet rectangle of the sprite id. -/
theorem C6_setTile_single_quad (sh : Sheet) (c : canvas) (id : Nat)
    (tx ty : Nat) (hx : tx < c.numTilesX) (hy : ty < c.numTilesY) :
    (cellList (SetTile c (some id) tx ty)).count (tx, ty) = 1 ∧
    tileContribution sh (SetTile c (some id) tx ty) (tx, ty)
      = tileQuad sh (SetTile c (some id) tx ty) tx ty id ∧
    tileQuad sh (SetTile c (some id) tx ty) tx ty id =
      [ { x := ((tx * c.tileWidth : Nat) : Int), y := ((ty * c.tileHeight : Nat) : Int),
          u := (sh.uvRect id).u0, v := (sh.uvRect id).v0 }
      , { x := ((tx * c.tileWidth : Nat) : Int) + (c.tileWidth : Int),
          y := ((ty * c.tileHeight : Nat) : Int),
          u := (sh.uvRect id).u1, v := (sh.uvRect id).v0 }
      , { x := ((tx * c.tileWidth : Nat) : Int) + (c.tileWidth : Int),
          y := ((ty * c.tileHeight : Nat) : Int) + (c.tileHeight : Int),
          u := (sh.uvRect id).u1, v := (sh.uvRect id).v1 }
      , { x := ((tx * c.tileWidth : Nat) : Int), y := ((ty * c.tileHeight : Nat) : Int),
          u := (sh.uvRect id).u0, v := (sh.uvRect id).v0 }
      , { x := ((tx * c.tileWidth : Nat) : Int) + (c.tileWidth : Int),
          y := ((ty * c.tileHeight : Nat) : Int) + (c.tileHeight : Int),
          u := (sh.uvRect id).u1, v := (sh.uvRect id).v1 }
      , { x := ((tx * c.tileWidth : Nat) : Int),
          y := ((ty * c.tileHeight : Nat) : Int) + (c.tileHeight : Int),
          u := (sh.uvRect id).u0, v := (sh.uvRect id).v1 } ] := by
  refine ⟨count_gridCells hx hy, ?_, rfl⟩
  unfold tileContribution
  rw [SetTile_tiles, if_pos ⟨rfl, rfl⟩]

/-- C6 witness: SetTile of sprite id 1 at cell (3, 4) of the 10x10 fixture
with 16x16 tiles; the emitted quad has corners (48, 64) to (64, 80) and the
uv rectangle of sprite 1. -/
theorem C6_setTile_single_quad_witness :
    3 < demoCanvas.numTilesX ∧ 4 < demoCanvas.numTilesY ∧
    (cellList (SetTile demoCanvas (some 1) 3 4)).count (3, 4) = 1 ∧
    tileQuad testSheet (SetTile demoCanvas (some 1) 3 4) 3 4 1 =
      [ { x := 48, y := 64, u := 1, v := 0 }, { x := 64, y := 64, u := 2, v := 0 }
      , { x := 64, y := 80, u := 2, v := 1 }, { x := 48, y := 64, u := 1, v := 0 }
      , { x := 64, y := 80, u := 2, v := 1 }, { x := 48, y := 80, u := 1, v := 1 } ] :=
  ⟨by decide, by decide,
    (C6_setTile_single_quad testSheet demoCanvas 1 3 4 (by decide) (by decide)).1,
    ((C6_setTile_single_quad testSheet demoCanvas 1 3 4 (by decide) (by decide)).2.2).trans
      (by decide)⟩

/-- C7: on an in-range sprite index, SetSprite with the invalid sentinel
deactivates the slot, so regeneration, which visits the slot exactly once,
emits no quad for it; a subsequent SetSprite on the same index with a valid
sprite id makes regeneration emit exactly one quad (6 vertices) for it. -/
theorem C7_setSprite_deactivate_reactivate (sh : Sheet) (c : canvas)
    (i : Nat) (px py pw ph qx qy qw qh : Int) (id : Nat)
    (hi : i < c.numSprites) :
    slotVerts sh (SetSprite c i InvalidSprite px py pw ph) i = [] ∧
    (List.range (SetSprite c i InvalidSprite px py pw ph).numSprites).count i = 1 ∧
    slotVerts sh
        (SetSprite (SetSprite c i InvalidSprite px py pw ph) i (some id) qx qy qw qh) i
      = spriteQuad sh { id := some id, x := qx, y := qy, w := qw, h := qh } id ∧
    (spriteQuad sh { id := some id, x := qx, y := qy, w := qw, h := qh } id).length = 6 := by
  refine ⟨?_, ?_, ?_, rfl⟩
  · unfold slotVerts
    rw [SetSprite_sprites, if_pos rfl]
    rfl
  · rw [SetSprite_numSprites]
    exact count_one_of_nodup _ i (List.nodup_range _) (List.mem_range.mpr hi)
  · unfold slotVerts
    rw [SetSprite_sprites, if_pos rfl]

/-- C7 witness: slot 0 of the 10x10 fixture (2 configured sprites) is
deactivated and then reactivated with sprite id 2. -/
theorem C7_setSprite_deactivate_reactivate_witness :
    0 < demoCanvas.numSprites ∧
    (slotVerts testSheet (SetSprite demoCanvas 0 InvalidSprite 1 2 3 4) 0 = [] ∧
    (List.range (SetSprite demoCanvas 0 InvalidSprite 1 2 3 4).numSprites).count 0 = 1 ∧
    slotVerts testSheet
        (SetSprite (SetSprite demoCanvas 0 InvalidSprite 1 2 3 4) 0 (some 2) 5 5 16 16) 0
      = spriteQuad testSheet { id := some 2, x := 5, y := 5, w := 16, h := 16 } 2 ∧
    (spriteQuad testSheet { id := some 2, x := 5, y := 5, w := 16, h := 16 } 2).length = 6) :=
  ⟨by decide,
    C7_setSprite_deactivate_reactivate testSheet demoCanvas 0 1 2 3 4 5 5 16 16 2 (by decide)⟩

/-- C8: a Setup call whose requested dimensions exceed the compile-time
maxima (64x64 tiles, 8 sprites) fails: the canvas is left exactly as it
was, and on a not-yet-set-up canvas IsValid() stays false. -/
theorem C8_setup_exceeding_maxima_rejected (c : canvas) (ntx nty tw th ns : Nat)
    (hexceed : MaxWidth < ntx ∨ MaxHeight < nty ∨ MaxNumSprites < ns)
    (hc : c.isValid = false) :
    Setup c ntx nty tw th ns = c ∧ IsValid (Setup c ntx nty tw th ns) = false := by
  have hneg : ¬(ntx ≤ MaxWidth ∧ nty ≤ MaxHeight ∧ ns ≤ MaxNumSprites) := by
    unfold MaxWidth MaxHeight MaxNumSprites at *
    omega
  unfold Setup
  rw [if_neg hneg]
  exact ⟨rfl, hc⟩

/-- C8 witness: Setup requesting 65 tile columns on the default-constructed
canvas is rejected and the canvas stays invalid. -/
theorem C8_setup_exceeding_maxima_rejected_witness :
    (MaxWidth < 65 ∨ MaxHeight < 10 ∨ MaxNumSprites < 2) ∧
    canvasDefault.isValid = false ∧
    (Setup canvasDefault 65 10 16 16 2 = canvasDefault ∧
      IsValid (Setup canvasDefault 65 10 16 16 2) = false) :=
  ⟨by decide, by decide,
    C8_setup_exceeding_maxima_rejected canvasDefault 65 10 16 16 2 (by decide) (by decide)⟩

/-- C9: every Setup call with numTilesX and numTilesY at most 64 and
numSprites at most 8 makes IsValid() true; after the matching Discard(),
IsValid() is false. -/
theorem C9_setup_discard_isValid (c : canvas) (ntx nty tw th ns : Nat)
    (h1 : ntx ≤ 64) (h2 : nty ≤ 64) (h3 : ns ≤ 8) :
    IsValid (Setup c ntx nty tw th ns) = true ∧
    IsValid (Discard (Setup c ntx nty tw th ns)) = false := by
  constructor
  · unfold Setup
    rw [if_pos ⟨h1, h2, h3⟩]
    rfl
  · rfl

/-- C9 witness: the Setup(10, 10, 16, 16, 2) example from the spec. -/
theorem C9_setup_discard_isValid_witness :
    10 ≤ 64 ∧ 10 ≤ 64 ∧ 2 ≤ 8 ∧
    (IsValid (Setup canvasDefault 10 10 16 16 2) = true ∧
      IsValid (Discard (Setup canvasDefault 10 10 16 16 2)) = false) :=
  ⟨by decide, by decide, by decide,
    C9_setup_discard_isValid canvasDefault 10 10 16 16 2 (by decide) (by decide) (by decide)⟩

/-- C10: in a default-constructed canvas, before any Setup, each of the 8
dynamic sprite slots holds the invalid-sprite sentinel with all pixel
fields 0, and therefore contributes no quad to a regeneration pass. -/
theorem C10_default_sprite_slots_inactive (sh : Sheet) (i : Nat)
    (_hi : i < MaxNumSprites) :
    canvasDefault.sprites i
      = { id := InvalidSprite, x := 0, y := 0, w := 0, h := 0 } ∧
    slotVerts sh canvasDefault i = [] :=
  ⟨rfl, rfl⟩

/-- C10 witness: slot 0 of the default-constructed canvas. -/
theorem C10_default_sprite_slots_inactive_witness :
    0 < MaxNumSprites ∧
    (canvasDefault.sprites 0
        = { id := InvalidSprite, x := 0, y := 0, w := 0, h := 0 } ∧
      slotVerts testSheet canvasDefault 0 = []) :=
  ⟨by decide, C10_default_sprite_slots_inactive testSheet 0 (by decide)⟩

end Paclone
